import Mathlib

/-!
Verification of the global-shortcuts core of `src/src-tauri/src/shortcuts.rs`.

The handlers are modelled as pure functions over a `World` of operation
outcomes (does the main window exist, does the OS visibility query succeed,
do `show`/`hide`/`set_focus`/`emit` succeed), producing the next world
together with a trace of observable effects (`Ev`): lock acquisition and
release, OS calls, emitted events with their payload, and log lines.
The Windows-only (`#[cfg(target_os = "windows")]`) branch of
`handle_toggle_window` is `handle_toggle_window_windows`, which also
threads the tracked `is_hidden` boolean; the other branch is
`handle_toggle_window_nonwindows`.
-/

namespace Pluely

/-- JSON payload of an emitted event: either a boolean (the tracked hidden
state emitted on Windows) or the empty object `json!({})`. -/
inductive Payload
  | jsonBool (b : Bool)
  | jsonEmpty
deriving DecidableEq

/-- Observable effects of a handler run, in program order: mutex operations
on the `WindowVisibility.is_hidden` lock, OS window calls, event emissions
(`window.emit`) and `eprintln!` log lines. -/
inductive Ev
  | lockAcquire
  | lockRelease
  | isVisibleQuery
  | showWindow
  | hideWindow
  | setFocus
  | emit (name : String) (payload : Payload)
  | log (msg : String)
deriving DecidableEq

/-- Outcome environment for one handler invocation: whether
`app.get_webview_window("main")` finds the window, the actual OS-mapped
visibility, and whether each fallible OS call succeeds. -/
structure World where
  windowExists : Bool
  visible : Bool
  queryOk : Bool
  showOk : Bool
  hideOk : Bool
  focusOk : Bool
  emitOk : Bool
deriving DecidableEq

/-- `window.is_visible()`: reports the actual visibility when the query
succeeds, an error otherwise. -/
def World.is_visible (w : World) : Except Unit Bool :=
  if w.queryOk then .ok w.visible else .error ()

/-- The `#[cfg(target_os = "windows")]` block of `handle_toggle_window`:
lock the tracked `is_hidden` boolean, negate it in place, emit
`toggle-window-visibility` with the new value (logging an emit failure),
and return; the mutex guard is dropped at the end of the block, after the
emit. Returns the new tracked value and the effect trace. -/
def handle_toggle_window_windows (w : World) (isHidden : Bool) : Bool × List Ev :=
  if w.windowExists then
    let newHidden := !isHidden
    (newHidden,
      [Ev.lockAcquire, Ev.emit "toggle-window-visibility" (.jsonBool newHidden)]
        ++ (if w.emitOk then [] else [Ev.log "Failed to emit toggle-window-visibility event"])
        ++ [Ev.lockRelease])
  else (isHidden, [])

/-- The `#[cfg(not(target_os = "windows"))]` branch of
`handle_toggle_window`: query OS visibility; on `Ok(true)` hide (logging a
failure); on `Ok(false)` show, focus and emit `focus-text-input`, logging
each failure but continuing; on `Err` log and do nothing else. -/
def handle_toggle_window_nonwindows (w : World) : World × List Ev :=
  if w.windowExists then
    match w.is_visible with
    | .ok true =>
        if w.hideOk then
          ({ w with visible := false }, [Ev.isVisibleQuery, Ev.hideWindow])
        else
          (w, [Ev.isVisibleQuery, Ev.hideWindow, Ev.log "Failed to hide window"])
    | .ok false =>
        let (w1, showEvs) :=
          if w.showOk then ({ w with visible := true }, [Ev.showWindow])
          else (w, [Ev.showWindow, Ev.log "Failed to show window"])
        let focusEvs :=
          if w.focusOk then [Ev.setFocus]
          else [Ev.setFocus, Ev.log "Failed to focus window"]
        let emitEvs :=
          if w.emitOk then [Ev.emit "focus-text-input" .jsonEmpty]
          else [Ev.emit "focus-text-input" .jsonEmpty, Ev.log "Failed to emit focus event"]
        (w1, [Ev.isVisibleQuery] ++ showEvs ++ focusEvs ++ emitEvs)
    | .error _ =>
        (w, [Ev.isVisibleQuery, Ev.log "Failed to check window visibility"])
  else (w, [])

/-- `handle_audio_shortcut`: if the window exists, and `is_visible()`
returns `Ok(false)`, show it (a show failure returns silently, emitting
nothing) and focus it (a focus failure is logged but not fatal); in every
other case of the query, proceed directly; finally emit
`start-audio-recording` with empty payload, logging an emit failure. -/
def handle_audio_shortcut (w : World) : World × List Ev :=
  if w.windowExists then
    let emitEvs :=
      if w.emitOk then [Ev.emit "start-audio-recording" .jsonEmpty]
      else [Ev.emit "start-audio-recording" .jsonEmpty, Ev.log "Failed to emit audio recording event"]
    match w.is_visible with
    | .ok false =>
        if w.showOk then
          let focusEvs :=
            if w.focusOk then [Ev.setFocus]
            else [Ev.setFocus, Ev.log "Failed to focus window"]
          ({ w with visible := true }, [Ev.isVisibleQuery, Ev.showWindow] ++ focusEvs ++ emitEvs)
        else
          (w, [Ev.isVisibleQuery, Ev.showWindow])
    | _ => (w, [Ev.isVisibleQuery] ++ emitEvs)
  else (w, [])

/-- `handle_screenshot_shortcut`: if the window exists, emit
`trigger-screenshot` with empty payload (logging an emit failure); it
performs no visibility query or window mutation at all. -/
def handle_screenshot_shortcut (w : World) : World × List Ev :=
  if w.windowExists then
    (w, [Ev.emit "trigger-screenshot" .jsonEmpty]
      ++ (if w.emitOk then [] else [Ev.log "Failed to emit screenshot event"]))
  else (w, [])

/-- `handle_system_audio_shortcut`: like `handle_audio_shortcut` but a show
failure is logged before returning, and the emitted event is
`toggle-system-audio`. -/
def handle_system_audio_shortcut (w : World) : World × List Ev :=
  if w.windowExists then
    let emitEvs :=
      if w.emitOk then [Ev.emit "toggle-system-audio" .jsonEmpty]
      else [Ev.emit "toggle-system-audio" .jsonEmpty, Ev.log "Failed to emit system audio event"]
    match w.is_visible with
    | .ok false =>
        if w.showOk then
          let focusEvs :=
            if w.focusOk then [Ev.setFocus]
            else [Ev.setFocus, Ev.log "Failed to focus window"]
          ({ w with visible := true }, [Ev.isVisibleQuery, Ev.showWindow] ++ focusEvs ++ emitEvs)
        else
          (w, [Ev.isVisibleQuery, Ev.showWindow, Ev.log "Failed to show window"])
    | _ => (w, [Ev.isVisibleQuery] ++ emitEvs)
  else (w, [])

/-- `DEFAULT_TOGGLE_SHORTCUT`, selected by `#[cfg(target_os = "macos")]`. -/
def DEFAULT_TOGGLE_SHORTCUT (macos : Bool) : String :=
  if macos then "cmd+backslash" else "ctrl+backslash"

/-- `DEFAULT_AUDIO_SHORTCUT`, selected by `#[cfg(target_os = "macos")]`. -/
def DEFAULT_AUDIO_SHORTCUT (macos : Bool) : String :=
  if macos then "cmd+shift+a" else "ctrl+shift+a"

/-- `DEFAULT_SCREENSHOT_SHORTCUT`, selected by `#[cfg(target_os = "macos")]`. -/
def DEFAULT_SCREENSHOT_SHORTCUT (macos : Bool) : String :=
  if macos then "cmd+shift+s" else "ctrl+shift+s"

/-- `DEFAULT_SYSTEM_AUDIO_SHORTCUT`, selected by `#[cfg(target_os = "macos")]`. -/
def DEFAULT_SYSTEM_AUDIO_SHORTCUT (macos : Bool) : String :=
  if macos then "cmd+shift+m" else "ctrl+shift+m"

/-- The fixed `shortcuts` array of `check_shortcuts_registered`, in source
order: toggle, audio, screenshot, system audio. -/
def shortcuts (macos : Bool) : List String :=
  [DEFAULT_TOGGLE_SHORTCUT macos, DEFAULT_AUDIO_SHORTCUT macos,
   DEFAULT_SCREENSHOT_SHORTCUT macos, DEFAULT_SYSTEM_AUDIO_SHORTCUT macos]

/-- The `for shortcut_str in shortcuts` loop of `check_shortcuts_registered`:
parse each string (a failure returns the parse error), query
`is_registered` (an unregistered combination returns `Ok(false)`
immediately), and return `Ok(true)` after the whole list. The parser and
the OS registration table are abstracted as the parameters `parse` and
`isReg`. -/
def checkShortcutsGo {α : Type} (parse : String → Option α) (isReg : α → Bool) :
    List String → Except String Bool
  | [] => .ok true
  | s :: rest =>
    match parse s with
    | some sc => if isReg sc then checkShortcutsGo parse isReg rest else .ok false
    | none => .error ("Failed to parse shortcut: " ++ s)

/-- `check_shortcuts_registered`: run the loop over the four fixed
combinations. -/
def check_shortcuts_registered {α : Type} (macos : Bool) (parse : String → Option α)
    (isReg : α → Bool) : Except String Bool :=
  checkShortcutsGo parse isReg (shortcuts macos)

/-- Effects of `setup_global_shortcuts`: attaching a handler for a parsed
combination (`on_shortcut`) and registering it with the OS (`register`). -/
inductive SetupEff (α : Type)
  | attachHandler (sc : α)
  | registerOS (sc : α)

/-- `setup_global_shortcuts`: parse the four fixed strings (any failure
returns the error immediately via `?`), then attach the four handlers in
order, then register the four combinations with the OS in order; each
attach or register call can fail, aborting with an error naming the
binding. Returns the result together with the attach/register effects that
were performed. -/
def setup_global_shortcuts {α : Type} (macos : Bool) (parse : String → Option α)
    (attachOk : α → Bool) (registerOk : α → Bool) :
    Except String Unit × List (SetupEff α) :=
  match parse (DEFAULT_TOGGLE_SHORTCUT macos) with
  | none => (.error "shortcut parse error", [])
  | some toggleSc =>
  match parse (DEFAULT_AUDIO_SHORTCUT macos) with
  | none => (.error "shortcut parse error", [])
  | some audioSc =>
  match parse (DEFAULT_SCREENSHOT_SHORTCUT macos) with
  | none => (.error "shortcut parse error", [])
  | some screenshotSc =>
  match parse (DEFAULT_SYSTEM_AUDIO_SHORTCUT macos) with
  | none => (.error "shortcut parse error", [])
  | some systemAudioSc =>
  let e1 := [SetupEff.attachHandler toggleSc]
  if !attachOk toggleSc then (.error "Failed to register toggle shortcut", e1) else
  let e2 := e1 ++ [SetupEff.attachHandler audioSc]
  if !attachOk audioSc then (.error "Failed to register audio shortcut", e2) else
  let e3 := e2 ++ [SetupEff.attachHandler screenshotSc]
  if !attachOk screenshotSc then (.error "Failed to register screenshot shortcut", e3) else
  let e4 := e3 ++ [SetupEff.attachHandler systemAudioSc]
  if !attachOk systemAudioSc then (.error "Failed to register system audio shortcut", e4) else
  let e5 := e4 ++ [SetupEff.registerOS toggleSc]
  if !registerOk toggleSc then (.error "Failed to register toggle shortcut", e5) else
  let e6 := e5 ++ [SetupEff.registerOS audioSc]
  if !registerOk audioSc then (.error "Failed to register audio shortcut", e6) else
  let e7 := e6 ++ [SetupEff.registerOS screenshotSc]
  if !registerOk screenshotSc then (.error "Failed to register screenshot shortcut", e7) else
  let e8 := e7 ++ [SetupEff.registerOS systemAudioSc]
  if !registerOk systemAudioSc then (.error "Failed to register system audio shortcut", e8) else
  (.ok (), e8)

/-- Recognizes the `toggle-window-visibility` emission (any payload). -/
def isToggleEmit : Ev → Bool
  | .emit "toggle-window-visibility" _ => true
  | _ => false

/-- Recognizes any event emission. -/
def isEmitEv : Ev → Bool
  | .emit _ _ => true
  | _ => false

/-- Recognizes a log line. -/
def isLogEv : Ev → Bool
  | .log _ => true
  | _ => false

/-- Recognizes the mutex release. -/
def isReleaseEv : Ev → Bool
  | .lockRelease => true
  | _ => false

/-- Recognizes a window-visibility mutation or focus call. -/
def isWindowOp : Ev → Bool
  | .showWindow => true
  | .hideWindow => true
  | .setFocus => true
  | _ => false

/-- Recognizes the `window.show()` call. -/
def isShowEv : Ev → Bool
  | .showWindow => true
  | _ => false

/-- Recognizes the `window.set_focus()` call. -/
def isFocusEv : Ev → Bool
  | .setFocus => true
  | _ => false

/-- `evBefore p q tr` holds when an event matching `p` and an event
matching `q` both occur in `tr` and the first `p`-event comes strictly
before the first `q`-event. -/
def evBefore (p q : Ev → Bool) (tr : List Ev) : Bool :=
  match tr.findIdx? p, tr.findIdx? q with
  | some i, some j => decide (i < j)
  | _, _ => false

/-- A concrete world in which every OS operation succeeds. -/
def allOkWorld : World :=
  { windowExists := true, visible := true, queryOk := true,
    showOk := true, hideOk := true, focusOk := true, emitOk := true }

/-- A concrete world: window exists but the OS visibility query fails. -/
def queryFailWorld : World :=
  { windowExists := true, visible := true, queryOk := false,
    showOk := true, hideOk := true, focusOk := true, emitOk := true }

/-- A concrete world with no main window. -/
def noWindowWorld : World :=
  { windowExists := false, visible := false, queryOk := true,
    showOk := true, hideOk := true, focusOk := true, emitOk := true }

/-- C1: On Windows, a toggle press with an existing main window performs no
OS visibility query, unconditionally negates the tracked hidden boolean
inside the lock-delimited critical section, and emits
`toggle-window-visibility` whose boolean payload is the negation of the
tracked value before the press. -/
theorem tracked_toggle_flips_and_emits_negation (w : World) (h : Bool)
    (hw : w.windowExists = true) :
    (handle_toggle_window_windows w h).1 = !h
    ∧ Ev.isVisibleQuery ∉ (handle_toggle_window_windows w h).2
    ∧ Ev.emit "toggle-window-visibility" (.jsonBool (!h)) ∈ (handle_toggle_window_windows w h).2
    ∧ (handle_toggle_window_windows w h).2.head? = some Ev.lockAcquire
    ∧ (handle_toggle_window_windows w h).2.getLast? = some Ev.lockRelease := by
  rcases w with ⟨we, v, q, s, hd, f, em⟩
  simp only at hw
  subst hw
  cases h <;> cases v <;> cases q <;> cases s <;> cases hd <;> cases f <;> cases em <;> decide

/-- Witness for C1 at a concrete world with the window present. -/
theorem tracked_toggle_flips_and_emits_negation_witness :
    (handle_toggle_window_windows allOkWorld false).1 = !false
    ∧ Ev.isVisibleQuery ∉ (handle_toggle_window_windows allOkWorld false).2
    ∧ Ev.emit "toggle-window-visibility" (.jsonBool (!false)) ∈ (handle_toggle_window_windows allOkWorld false).2
    ∧ (handle_toggle_window_windows allOkWorld false).2.head? = some Ev.lockAcquire
    ∧ (handle_toggle_window_windows allOkWorld false).2.getLast? = some Ev.lockRelease :=
  tracked_toggle_flips_and_emits_negation allOkWorld false (by decide)

/-- C2 counterexample: with the window present and every OS call
succeeding, the `toggle-window-visibility` emission does NOT come after the
lock release — the mutex guard is dropped only at the end of the Windows
block, after `window.emit`, so the claim that the lock is released before
the notification is emitted is false. -/
theorem lock_release_not_before_emit_cex :
    evBefore isReleaseEv isToggleEmit (handle_toggle_window_windows allOkWorld false).2 = false := by
  decide

/-- C2 amended: the notification is emitted strictly before the lock is
released — emission happens inside the critical section. -/
theorem emit_inside_critical_section (w : World) (h : Bool)
    (hw : w.windowExists = true) :
    evBefore isToggleEmit isReleaseEv (handle_toggle_window_windows w h).2 = true := by
  rcases w with ⟨we, v, q, s, hd, f, em⟩
  simp only at hw
  subst hw
  cases h <;> cases v <;> cases q <;> cases s <;> cases hd <;> cases f <;> cases em <;> decide

/-- Witness for the amended C2 at a concrete world. -/
theorem emit_inside_critical_section_witness :
    evBefore isToggleEmit isReleaseEv (handle_toggle_window_windows allOkWorld false).2 = true :=
  emit_inside_critical_section allOkWorld false (by decide)

/-- A concrete world with the window present, hidden, and all OS calls
succeeding. -/
def hiddenWorld : World :=
  { windowExists := true, visible := false, queryOk := true,
    showOk := true, hideOk := true, focusOk := true, emitOk := true }

/-- A concrete hidden world in which `window.show()` fails. -/
def showFailWorld : World :=
  { windowExists := true, visible := false, queryOk := true,
    showOk := false, hideOk := true, focusOk := true, emitOk := true }

/-- C3 counterexample: in `handle_audio_shortcut`, when the window exists
but the OS visibility query fails, the handler still emits
`start-audio-recording`, and nothing is logged — refuting the claim that
every hotkey action abandons with a logged error and no notification on a
query failure. -/
theorem audio_query_error_still_emits_cex :
    Ev.emit "start-audio-recording" Payload.jsonEmpty ∈ (handle_audio_shortcut queryFailWorld).2
    ∧ (handle_audio_shortcut queryFailWorld).2.all (fun e => !isLogEv e) = true := by
  decide

/-- C3 amended: on a visibility-query failure, the toggle action logs the
failure and abandons (state unchanged, only the query and the log in the
trace, so no notification); the audio and system-audio actions do not
abandon: they skip the show/focus steps, emit their notification anyway,
and (when the emit succeeds) log nothing. -/
theorem query_error_handling_by_action (w : World)
    (hw : w.windowExists = true) (hq : w.queryOk = false) :
    ((handle_toggle_window_nonwindows w).1 = w
     ∧ (handle_toggle_window_nonwindows w).2
        = [Ev.isVisibleQuery, Ev.log "Failed to check window visibility"])
    ∧ ((handle_audio_shortcut w).2.all (fun e => !isWindowOp e) = true
       ∧ Ev.emit "start-audio-recording" Payload.jsonEmpty ∈ (handle_audio_shortcut w).2
       ∧ (w.emitOk = true → (handle_audio_shortcut w).2.all (fun e => !isLogEv e) = true))
    ∧ ((handle_system_audio_shortcut w).2.all (fun e => !isWindowOp e) = true
       ∧ Ev.emit "toggle-system-audio" Payload.jsonEmpty ∈ (handle_system_audio_shortcut w).2
       ∧ (w.emitOk = true → (handle_system_audio_shortcut w).2.all (fun e => !isLogEv e) = true)) := by
  rcases w with ⟨we, v, q, s, hd, f, em⟩
  simp only at hw hq
  subst hw; subst hq
  cases v <;> cases s <;> cases hd <;> cases f <;> cases em <;> decide

/-- Witness for the amended C3 at a concrete world with a failing query. -/
theorem query_error_handling_by_action_witness :
    queryFailWorld.windowExists = true ∧ queryFailWorld.queryOk = false
    ∧ (((handle_toggle_window_nonwindows queryFailWorld).1 = queryFailWorld
     ∧ (handle_toggle_window_nonwindows queryFailWorld).2
        = [Ev.isVisibleQuery, Ev.log "Failed to check window visibility"])
    ∧ ((handle_audio_shortcut queryFailWorld).2.all (fun e => !isWindowOp e) = true
       ∧ Ev.emit "start-audio-recording" Payload.jsonEmpty ∈ (handle_audio_shortcut queryFailWorld).2
       ∧ (queryFailWorld.emitOk = true → (handle_audio_shortcut queryFailWorld).2.all (fun e => !isLogEv e) = true))
    ∧ ((handle_system_audio_shortcut queryFailWorld).2.all (fun e => !isWindowOp e) = true
       ∧ Ev.emit "toggle-system-audio" Payload.jsonEmpty ∈ (handle_system_audio_shortcut queryFailWorld).2
       ∧ (queryFailWorld.emitOk = true → (handle_system_audio_shortcut queryFailWorld).2.all (fun e => !isLogEv e) = true))) :=
  ⟨by decide, by decide, query_error_handling_by_action queryFailWorld (by decide) (by decide)⟩

/-- C4 counterexample: on the tracked platform (Windows), a toggle press in
the HIDDEN state (tracked boolean true) performs no show, no focus, and no
`focus-text-input` emission — refuting the claim that every hidden-state
toggle press shows and focuses the window and notifies the text input. -/
theorem tracked_hidden_press_no_show_cex :
    Ev.showWindow ∉ (handle_toggle_window_windows allOkWorld true).2
    ∧ Ev.setFocus ∉ (handle_toggle_window_windows allOkWorld true).2
    ∧ Ev.emit "focus-text-input" Payload.jsonEmpty ∉ (handle_toggle_window_windows allOkWorld true).2 := by
  decide

/-- C4 amended: on non-tracked platforms, a toggle press with the window
reported hidden (and the show succeeding) shows the window, focuses it,
emits `focus-text-input`, and the next state is VISIBLE; on the tracked
platform the dispatcher only flips the tracked flag to visible and emits
the new state, performing no direct show or focus. -/
theorem hidden_press_behavior_by_platform (w : World)
    (hw : w.windowExists = true) (hv : w.visible = false)
    (hq : w.queryOk = true) (hs : w.showOk = true) :
    ((handle_toggle_window_nonwindows w).1.visible = true
     ∧ Ev.showWindow ∈ (handle_toggle_window_nonwindows w).2
     ∧ Ev.setFocus ∈ (handle_toggle_window_nonwindows w).2
     ∧ Ev.emit "focus-text-input" Payload.jsonEmpty ∈ (handle_toggle_window_nonwindows w).2)
    ∧ ((handle_toggle_window_windows w true).1 = false
       ∧ Ev.emit "toggle-window-visibility" (Payload.jsonBool false) ∈ (handle_toggle_window_windows w true).2
       ∧ Ev.showWindow ∉ (handle_toggle_window_windows w true).2
       ∧ Ev.setFocus ∉ (handle_toggle_window_windows w true).2
       ∧ Ev.emit "focus-text-input" Payload.jsonEmpty ∉ (handle_toggle_window_windows w true).2) := by
  rcases w with ⟨we, v, q, s, hd, f, em⟩
  simp only at hw hv hq hs
  subst hw; subst hv; subst hq; subst hs
  cases hd <;> cases f <;> cases em <;> decide

/-- Witness for the amended C4 at a concrete hidden world. -/
theorem hidden_press_behavior_by_platform_witness :
    hiddenWorld.windowExists = true ∧ hiddenWorld.visible = false
    ∧ hiddenWorld.queryOk = true ∧ hiddenWorld.showOk = true
    ∧ (((handle_toggle_window_nonwindows hiddenWorld).1.visible = true
     ∧ Ev.showWindow ∈ (handle_toggle_window_nonwindows hiddenWorld).2
     ∧ Ev.setFocus ∈ (handle_toggle_window_nonwindows hiddenWorld).2
     ∧ Ev.emit "focus-text-input" Payload.jsonEmpty ∈ (handle_toggle_window_nonwindows hiddenWorld).2)
    ∧ ((handle_toggle_window_windows hiddenWorld true).1 = false
       ∧ Ev.emit "toggle-window-visibility" (Payload.jsonBool false) ∈ (handle_toggle_window_windows hiddenWorld true).2
       ∧ Ev.showWindow ∉ (handle_toggle_window_windows hiddenWorld true).2
       ∧ Ev.setFocus ∉ (handle_toggle_window_windows hiddenWorld true).2
       ∧ Ev.emit "focus-text-input" Payload.jsonEmpty ∉ (handle_toggle_window_windows hiddenWorld true).2)) :=
  ⟨by decide, by decide, by decide, by decide,
    hidden_press_behavior_by_platform hiddenWorld (by decide) (by decide) (by decide) (by decide)⟩

/-- C6: for StartAudio and ToggleSystemAudio with the window present and
reported not visible: if the show succeeds, the show and the focus both
occur strictly before the first emission, the window ends visible, and the
respective notification is emitted; if the show fails, neither handler
emits anything at all. -/
theorem audio_handlers_show_focus_before_emit (w : World)
    (hw : w.windowExists = true) (hv : w.visible = false) (hq : w.queryOk = true) :
    (w.showOk = true →
      (evBefore isShowEv isEmitEv (handle_audio_shortcut w).2 = true
       ∧ evBefore isFocusEv isEmitEv (handle_audio_shortcut w).2 = true
       ∧ (handle_audio_shortcut w).1.visible = true
       ∧ Ev.emit "start-audio-recording" Payload.jsonEmpty ∈ (handle_audio_shortcut w).2
       ∧ evBefore isShowEv isEmitEv (handle_system_audio_shortcut w).2 = true
       ∧ evBefore isFocusEv isEmitEv (handle_system_audio_shortcut w).2 = true
       ∧ (handle_system_audio_shortcut w).1.visible = true
       ∧ Ev.emit "toggle-system-audio" Payload.jsonEmpty ∈ (handle_system_audio_shortcut w).2))
    ∧ (w.showOk = false →
      ((handle_audio_shortcut w).2.all (fun e => !isEmitEv e) = true
       ∧ (handle_system_audio_shortcut w).2.all (fun e => !isEmitEv e) = true)) := by
  rcases w with ⟨we, v, q, s, hd, f, em⟩
  simp only at hw hv hq
  subst hw; subst hv; subst hq
  cases s <;> cases hd <;> cases f <;> cases em <;> decide

/-- Witness for C6, at a hidden world where the show succeeds and at one
where it fails. -/
theorem audio_handlers_show_focus_before_emit_witness :
    (hiddenWorld.showOk = true ∧ evBefore isShowEv isEmitEv (handle_audio_shortcut hiddenWorld).2 = true
      ∧ (handle_audio_shortcut hiddenWorld).1.visible = true)
    ∧ (showFailWorld.showOk = false
      ∧ (handle_audio_shortcut showFailWorld).2.all (fun e => !isEmitEv e) = true) :=
  ⟨⟨by decide,
    ((audio_handlers_show_focus_before_emit hiddenWorld (by decide) (by decide) (by decide)).1
      (by decide)).1,
    ((audio_handlers_show_focus_before_emit hiddenWorld (by decide) (by decide) (by decide)).1
      (by decide)).2.2.1⟩,
   by decide,
   ((audio_handlers_show_focus_before_emit showFailWorld (by decide) (by decide) (by decide)).2
      (by decide)).1⟩

/-- C7: the Screenshot handler never mutates the world (so visibility is
unchanged), performs no show/hide/focus call, every emission in its trace
is `trigger-screenshot` with empty payload, and when the window exists that
emission occurs. -/
theorem screenshot_preserves_visibility (w : World) :
    (handle_screenshot_shortcut w).1 = w
    ∧ (handle_screenshot_shortcut w).2.all (fun e => !isWindowOp e) = true
    ∧ (handle_screenshot_shortcut w).2.all
        (fun e => !isEmitEv e || (e == Ev.emit "trigger-screenshot" Payload.jsonEmpty)) = true
    ∧ (w.windowExists = true →
        Ev.emit "trigger-screenshot" Payload.jsonEmpty ∈ (handle_screenshot_shortcut w).2) := by
  rcases w with ⟨we, v, q, s, hd, f, em⟩
  cases we <;> cases v <;> cases q <;> cases s <;> cases hd <;> cases f <;> cases em <;> decide

/-- Witness for C7 at a concrete world with the window present. -/
theorem screenshot_preserves_visibility_witness :
    (handle_screenshot_shortcut allOkWorld).1 = allOkWorld
    ∧ (handle_screenshot_shortcut allOkWorld).2.all (fun e => !isWindowOp e) = true
    ∧ (handle_screenshot_shortcut allOkWorld).2.all
        (fun e => !isEmitEv e || (e == Ev.emit "trigger-screenshot" Payload.jsonEmpty)) = true
    ∧ (allOkWorld.windowExists = true →
        Ev.emit "trigger-screenshot" Payload.jsonEmpty ∈ (handle_screenshot_shortcut allOkWorld).2) :=
  screenshot_preserves_visibility allOkWorld

/-- C8: when the main window does not exist, a toggle press is a silent
no-op on both platform branches: the tracked boolean is unchanged, the
world is unchanged, and the effect trace is empty (so nothing is emitted
and nothing is logged); the handler returns normally, raising no error. -/
theorem toggle_absent_window_noop (w : World) (h : Bool)
    (hw : w.windowExists = false) :
    handle_toggle_window_windows w h = (h, [])
    ∧ handle_toggle_window_nonwindows w = (w, []) := by
  rcases w with ⟨we, v, q, s, hd, f, em⟩
  simp only at hw
  subst hw
  cases h <;> cases v <;> cases q <;> cases s <;> cases hd <;> cases f <;> cases em <;> decide

/-- Witness for C8 at a concrete world with no window. -/
theorem toggle_absent_window_noop_witness :
    noWindowWorld.windowExists = false
    ∧ (handle_toggle_window_windows noWindowWorld true = (true, [])
       ∧ handle_toggle_window_nonwindows noWindowWorld = (noWindowWorld, [])) :=
  ⟨by decide, toggle_absent_window_noop noWindowWorld true (by decide)⟩

/-- C10: in the StartAudio and ToggleSystemAudio handlers, when the window
exists but the visibility query fails, the show and focus steps are
skipped entirely (no window operation in the trace) and the respective
notification is still emitted. -/
theorem audio_query_error_skips_show_still_emits (w : World)
    (hw : w.windowExists = true) (hq : w.queryOk = false) :
    (handle_audio_shortcut w).2.all (fun e => !isWindowOp e) = true
    ∧ Ev.emit "start-audio-recording" Payload.jsonEmpty ∈ (handle_audio_shortcut w).2
    ∧ (handle_system_audio_shortcut w).2.all (fun e => !isWindowOp e) = true
    ∧ Ev.emit "toggle-system-audio" Payload.jsonEmpty ∈ (handle_system_audio_shortcut w).2 := by
  rcases w with ⟨we, v, q, s, hd, f, em⟩
  simp only at hw hq
  subst hw; subst hq
  cases v <;> cases s <;> cases hd <;> cases f <;> cases em <;> decide

/-- Witness for C10 at a concrete world with a failing query. -/
theorem audio_query_error_skips_show_still_emits_witness :
    queryFailWorld.windowExists = true ∧ queryFailWorld.queryOk = false
    ∧ ((handle_audio_shortcut queryFailWorld).2.all (fun e => !isWindowOp e) = true
    ∧ Ev.emit "start-audio-recording" Payload.jsonEmpty ∈ (handle_audio_shortcut queryFailWorld).2
    ∧ (handle_system_audio_shortcut queryFailWorld).2.all (fun e => !isWindowOp e) = true
    ∧ Ev.emit "toggle-system-audio" Payload.jsonEmpty ∈ (handle_system_audio_shortcut queryFailWorld).2) :=
  ⟨by decide, by decide, audio_query_error_skips_show_still_emits queryFailWorld (by decide) (by decide)⟩

/-- The check loop returns `Ok(true)` exactly when every string in the
list parses and its combination is registered. -/
theorem checkShortcutsGo_ok_true_iff {α : Type} (parse : String → Option α)
    (isReg : α → Bool) (L : List String) :
    checkShortcutsGo parse isReg L = .ok true ↔
      ∀ s ∈ L, ∃ a, parse s = some a ∧ isReg a = true := by
  induction L with
  | nil => simp [checkShortcutsGo]
  | cons s rest ih =>
    cases hp : parse s with
    | none => simp [checkShortcutsGo, hp]
    | some a =>
      cases hr : isReg a with
      | false => simp [checkShortcutsGo, hp, hr]
      | true => simp [checkShortcutsGo, hp, hr, ih]

/-- If every string before `s` parses to a registered combination and `s`
parses to an unregistered one, the loop stops at `s` with `Ok(false)`,
whatever the rest of the list holds. -/
theorem checkShortcutsGo_shortcircuit {α : Type} (parse : String → Option α)
    (isReg : α → Bool) :
    ∀ (L1 : List String) (s : String) (L2 : List String) (a : α),
      (∀ t ∈ L1, ∃ b, parse t = some b ∧ isReg b = true) →
      parse s = some a → isReg a = false →
      checkShortcutsGo parse isReg (L1 ++ s :: L2) = .ok false := by
  intro L1
  induction L1 with
  | nil =>
    intro s L2 a _ hp hr
    simp [checkShortcutsGo, hp, hr]
  | cons t rest ih =>
    intro s L2 a hall hp hr
    obtain ⟨b, hb, hrb⟩ := hall t (by simp)
    simpa [checkShortcutsGo, hb, hrb] using
      ih s L2 a (fun u hu => hall u (by simp [hu])) hp hr

/-- If every string before `s` parses to a registered combination and `s`
fails to parse, the loop stops at `s` with the parse error. -/
theorem checkShortcutsGo_parse_failure {α : Type} (parse : String → Option α)
    (isReg : α → Bool) :
    ∀ (L1 : List String) (s : String) (L2 : List String),
      (∀ t ∈ L1, ∃ b, parse t = some b ∧ isReg b = true) →
      parse s = none →
      checkShortcutsGo parse isReg (L1 ++ s :: L2)
        = .error ("Failed to parse shortcut: " ++ s) := by
  intro L1
  induction L1 with
  | nil =>
    intro s L2 _ hp
    simp [checkShortcutsGo, hp]
  | cons t rest ih =>
    intro s L2 hall hp
    obtain ⟨b, hb, hrb⟩ := hall t (by simp)
    simpa [checkShortcutsGo, hb, hrb] using
      ih s L2 (fun u hu => hall u (by simp [hu])) hp

/-- C5: `check_shortcuts_registered` returns `Ok(true)` iff all four fixed
combinations parse and are reported registered by the OS; when the first
unregistered combination in order is reached (all earlier ones registered)
the result is `Ok(false)` regardless of everything after it (short-circuit,
later combinations not queried); and when a parse failure is reached first,
the result is an `Err` carrying the offending string, which is distinct
from any `Ok` outcome, in particular from the not-registered `Ok(false)`. -/
theorem check_registered_spec {α : Type} (macos : Bool) (parse : String → Option α)
    (isReg : α → Bool) :
    (check_shortcuts_registered macos parse isReg = .ok true ↔
      ∀ s ∈ shortcuts macos, ∃ a, parse s = some a ∧ isReg a = true)
    ∧ (∀ (L1 : List String) (s : String) (L2 : List String) (a : α),
        shortcuts macos = L1 ++ s :: L2 →
        (∀ t ∈ L1, ∃ b, parse t = some b ∧ isReg b = true) →
        parse s = some a → isReg a = false →
        check_shortcuts_registered macos parse isReg = .ok false)
    ∧ (∀ (L1 : List String) (s : String) (L2 : List String),
        shortcuts macos = L1 ++ s :: L2 →
        (∀ t ∈ L1, ∃ b, parse t = some b ∧ isReg b = true) →
        parse s = none →
        check_shortcuts_registered macos parse isReg
          = .error ("Failed to parse shortcut: " ++ s)
        ∧ ∀ b, check_shortcuts_registered macos parse isReg ≠ .ok b) := by
  refine ⟨checkShortcutsGo_ok_true_iff parse isReg (shortcuts macos), ?_, ?_⟩
  · intro L1 s L2 a hdecomp hall hp hr
    unfold check_shortcuts_registered
    rw [hdecomp]
    exact checkShortcutsGo_shortcircuit parse isReg L1 s L2 a hall hp hr
  · intro L1 s L2 hdecomp hall hp
    have herr : check_shortcuts_registered macos parse isReg
        = .error ("Failed to parse shortcut: " ++ s) := by
      unfold check_shortcuts_registered
      rw [hdecomp]
      exact checkShortcutsGo_parse_failure parse isReg L1 s L2 hall hp
    exact ⟨herr, fun b hb => by rw [herr] at hb; exact Except.noConfusion hb⟩

/-- Witness for C5: with every combination registered the check returns
`Ok(true)`; with the first combination unregistered it returns `Ok(false)`. -/
theorem check_registered_spec_witness :
    check_shortcuts_registered false some (fun _ : String => true) = .ok true
    ∧ check_shortcuts_registered false some (fun _ : String => false) = .ok false :=
  ⟨(check_registered_spec false some (fun _ : String => true)).1.mpr
      (fun s _ => ⟨s, rfl, rfl⟩),
   (check_registered_spec false some (fun _ : String => false)).2.1
      [] "ctrl+backslash" ["ctrl+shift+a", "ctrl+shift+s", "ctrl+shift+m"]
      "ctrl+backslash" (by decide) (by simp) rfl rfl⟩

/-- C9: if any of the four fixed key-chord strings fails to parse, setup
returns an error and its effect trace is empty — no handler was attached
and no combination was registered with the OS, so no partial registration
is left behind. -/
theorem setup_parse_failure_all_or_nothing {α : Type} (macos : Bool)
    (parse : String → Option α) (attachOk : α → Bool) (registerOk : α → Bool)
    (hfail : ∃ s ∈ shortcuts macos, parse s = none) :
    (∃ msg, (setup_global_shortcuts macos parse attachOk registerOk).1 = .error msg)
    ∧ (setup_global_shortcuts macos parse attachOk registerOk).2 = [] := by
  obtain ⟨s, hs, hp⟩ := hfail
  simp only [shortcuts, List.mem_cons, List.not_mem_nil, or_false] at hs
  rcases h1 : parse (DEFAULT_TOGGLE_SHORTCUT macos) with _ | a1
  · simp [setup_global_shortcuts, h1]
  rcases h2 : parse (DEFAULT_AUDIO_SHORTCUT macos) with _ | a2
  · simp [setup_global_shortcuts, h1, h2]
  rcases h3 : parse (DEFAULT_SCREENSHOT_SHORTCUT macos) with _ | a3
  · simp [setup_global_shortcuts, h1, h2, h3]
  rcases h4 : parse (DEFAULT_SYSTEM_AUDIO_SHORTCUT macos) with _ | a4
  · simp [setup_global_shortcuts, h1, h2, h3, h4]
  · exfalso
    rcases hs with hs | hs | hs | hs <;> subst hs <;> simp_all

/-- A parser that rejects exactly the toggle combination, accepting the
other strings unchanged. -/
def rejectToggleParse (s : String) : Option String :=
  if s = "ctrl+backslash" then none else some s

/-- Witness for C9 at a concrete failing parser. -/
theorem setup_parse_failure_all_or_nothing_witness :
    (∃ msg, (setup_global_shortcuts false rejectToggleParse
        (fun _ => true) (fun _ => true)).1 = .error msg)
    ∧ (setup_global_shortcuts false rejectToggleParse
        (fun _ => true) (fun _ => true)).2 = [] :=
  setup_parse_failure_all_or_nothing false rejectToggleParse (fun _ => true) (fun _ => true)
    ⟨"ctrl+backslash", by decide, by decide⟩

end Pluely
